import Mathlib

/-!
Verification of the survey normalization and aggregation pipeline of the
staff-experience-dashboard repository (src/app.py and src/app2.py).

The Python code is shallowly embedded: pandas Series values that may be
missing (NaN) are `Option` values, Python strings are `String`, and numeric
scores are `ℚ`.  Pandas/Python idioms are modelled as follows:

* `needle in hay` (Python substring test) is `pyIn`, and
  `Series.str.contains(pat, case=False, na=False)` is modelled as
  case-insensitive literal-substring containment (all patterns passed by the
  dashboards are free of regex metacharacters, for which pandas regex
  containment coincides with literal substring containment);
* `str.lower` is `pyLower`, `str.strip` is `pyStrip`, and `str.split(',')`
  is `pySplitComma` (Python semantics: splitting the empty string yields
  `[""]`, never the empty list);
* `Series.astype(str)` maps a missing value to the literal string `"nan"`
  (`astypeStr`);
* comparisons against NaN (`score <= 3` on a missing score) are false
  (`pyLe`, `pyGe`);
* `pd.crosstab(..., normalize='index') * 100` is `crosstab_pct`
  (`ct_groups` and `ct_cats` are the observed row and column keys in sorted
  order, rows with a missing key on either side are dropped);
* `Series.value_counts().head(k)` is `value_counts`/`top_roles_of`
  (count in descending order, stable for ties);
* `DataFrame.reindex(labels)` re-emits a row of NaN (`none`) entries for a
  label absent from the index, as in `create_stacked_bar`;
* `df.columns = [...]` raises a length-mismatch `ValueError` when the list
  does not have exactly one name per column (`set_columns` returns
  `Except.error` in that case);
* a Python value that is either a float or `None` is an `Option PyNum`,
  where `PyNum` distinguishes an actual number from float NaN.
-/

namespace StaffSurvey

/-! ### String primitives -/

/-- Lower-cased character data of a string (Python `str.lower`, ASCII-faithful). -/
def lowerData (s : String) : List Char := s.data.map Char.toLower

/-- Python `str.lower()`. -/
def pyLower (s : String) : String := String.mk (lowerData s)

/-- Contiguous-sublist test on character lists: does `needle` occur inside `hay`? -/
def listSub (needle : List Char) : List Char → Bool
  | [] => needle.isEmpty
  | c :: cs => needle.isPrefixOf (c :: cs) || listSub needle cs

/-- Python `needle in hay` (case-sensitive substring containment). -/
def pyIn (needle hay : String) : Bool := listSub needle.data hay.data

/-- Case-insensitive substring containment, modelling
`Series.str.contains(needle, case=False)` for metacharacter-free needles. -/
def str_contains_ci (hay needle : String) : Bool := listSub (lowerData needle) (lowerData hay)

/-- Python `str.strip()`: drop whitespace from both ends. -/
def pyStrip (s : String) : String :=
  String.mk (((s.data.dropWhile Char.isWhitespace).reverse.dropWhile Char.isWhitespace).reverse)

/-- Helper for `pySplitComma`; `cur` is the reversed current chunk. -/
def splitCommaAux : List Char → List Char → List (List Char)
  | cur, [] => [cur.reverse]
  | cur, c :: cs =>
    if c = ',' then cur.reverse :: splitCommaAux [] cs else splitCommaAux (c :: cur) cs

/-- Python `s.split(',')`: always at least one chunk, empty chunks kept. -/
def pySplitComma (s : String) : List String :=
  (splitCommaAux [] s.data).map (fun l => String.mk l)

/-- Pandas `Series.astype(str)` on a possibly-missing string cell: NaN prints as `"nan"`. -/
def astypeStr : Option String → String
  | none => "nan"
  | some s => s

/-- Strict lexicographic comparison on character data (kernel-computable,
used to model pandas sorting keys of a crosstab). -/
def listLexLt : List Char → List Char → Bool
  | [], [] => false
  | [], _ :: _ => true
  | _ :: _, [] => false
  | a :: as, b :: bs =>
    if a.toNat < b.toNat then true
    else if b.toNat < a.toNat then false
    else listLexLt as bs

/-- Sort a list of strings lexicographically (pandas sorts crosstab keys). -/
def sort_strings (xs : List String) : List String :=
  List.insertionSort (fun a b => listLexLt a.data b.data = true) xs

/-! ### Missing-value comparisons (NaN comparisons are false in Python) -/

/-- `score <= c` on a possibly-missing score; `NaN <= c` is `False`. -/
def pyLe (x : Option ℚ) (c : ℚ) : Bool :=
  match x with
  | none => false
  | some v => decide (v ≤ c)

/-- `score >= c` on a possibly-missing score; `NaN >= c` is `False`. -/
def pyGe (x : Option ℚ) (c : ℚ) : Bool :=
  match x with
  | none => false
  | some v => decide (c ≤ v)

/-! ### app.py: helper functions (lines 70-104) -/

/-- `get_score_band` (src/app.py lines 70-74), applied via
`filtered_df['Recommendation_Score'].apply(get_score_band)` (line 104).
A missing score makes every `<=` comparison false, so control falls to the
final `else`. -/
def get_score_band (score : Option ℚ) : String :=
  if pyLe score 3 then "0-3"
  else if pyLe score 6 then "4-6"
  else if pyLe score 8 then "7-8"
  else "9-10"

/-- `categorize_disability` (src/app.py lines 76-82). -/
def categorize_disability (disability_text : String) : String :=
  if pyIn "do not identify" (pyLower disability_text) then "No Disability"
  else if pyIn "prefer not to specify" (pyLower disability_text) then "Prefer Not to Specify"
  else "With Disability"

/-- The `role_mapping` dictionary of `shorten_role` (src/app.py lines 85-96). -/
def role_mapping : List (String × String) :=
  [("Director/Assistant Director/Manager/Assistant Manager (HR/Finance/Property/Fundraising/Development)",
    "Director/Manager (HR/Finance/Dev)"),
   ("Director/Assistant Director/Manager/Assistant Manager/Site Manager (Shelters/Housing)",
    "Director/Manager (Shelters)"),
   ("Supervisor (Shelters/Housing)", "Supervisor (Shelters)"),
   ("Supervisor (HR/Finance/Property/Fundraising/Development)", "Supervisor (HR/Finance/Dev)"),
   ("ICM - Shelters (includes ICM, HHW, Community Engagement, ICM Health Standards, etc.)",
    "ICM - Shelters"),
   ("Non-24 Hour Program (including ICM, follow-up supports and PSW)", "Non-24 Hour Program"),
   ("Other (Smaller departments/teams not listed seperately in an effort to maintain confidentiality)",
    "Other"),
   ("Prefer not to disclose/Other", "Prefer not to disclose"),
   ("CSW - Shelters", "CSW - Shelters"),
   ("Relief", "Relief")]

/-- `shorten_role` (src/app.py lines 84-97): `role_mapping.get(role, role)`. -/
def shorten_role (role : String) : String :=
  (List.lookup role role_mapping).getD role

/-! ### app.py: table model and role-wise chart pipelines -/

/-- One row of the app.py dataframe as used by the role-wise charts:
`role` is the `Role` column, `value` the survey-question column being
cross-tabulated (missing cells allowed), and `rest` stands for the
remaining columns copied around unchanged. -/
structure AppRow (α : Type) where
  role : String
  value : Option String
  rest : α
deriving DecidableEq

/-- `Series.value_counts()`: unique keys with their counts, sorted by count
descending (stable sort). -/
def value_counts (xs : List String) : List (String × ℕ) :=
  List.insertionSort (fun a b => b.2 < a.2) (xs.dedup.map (fun k => (k, xs.count k)))

/-- `df['Role'].value_counts().head(k).index.tolist()`. -/
def top_roles_of {α : Type} (k : ℕ) (rows : List (AppRow α)) : List String :=
  ((value_counts (rows.map (fun r => r.role))).take k).map Prod.fst

/-- Rows retained by `create_sentiment_heatmap` (src/app.py lines 158-160):
`df[df['Role'].isin(top_roles)]` with the top 8 roles. -/
def heatmap_source {α : Type} (rows : List (AppRow α)) : List (AppRow α) :=
  rows.filter (fun r => decide (r.role ∈ top_roles_of 8 rows))

/-- Rows retained as `df_cross` for the diverging bars (src/app.py lines 205-206):
top 8 roles. -/
def diverging_source {α : Type} (rows : List (AppRow α)) : List (AppRow α) :=
  rows.filter (fun r => decide (r.role ∈ top_roles_of 8 rows))

/-- Rows retained by `create_stacked_bar` (src/app.py lines 392-394): top 8 roles. -/
def stacked_source {α : Type} (rows : List (AppRow α)) : List (AppRow α) :=
  rows.filter (fun r => decide (r.role ∈ top_roles_of 8 rows))

/-- Rows retained by `create_grouped_bar` (src/app.py lines 476-478): top 6 roles. -/
def grouped_source {α : Type} (rows : List (AppRow α)) : List (AppRow α) :=
  rows.filter (fun r => decide (r.role ∈ top_roles_of 6 rows))

/-! ### Row-normalized cross-tabulation
(`pd.crosstab(rows, cols, normalize='index') * 100`, src/app.py lines 162,
396, 480, and the equivalent count-then-divide form of src/app2.py line 311). -/

/-- Observed (group, category) pairs: crosstab drops a pair when either key
is missing. -/
def obs_pairs (ps : List (Option String × Option String)) : List (String × String) :=
  ps.filterMap (fun p =>
    match p.1, p.2 with
    | some a, some b => some (a, b)
    | _, _ => none)

/-- The group (index) keys of the crosstab, each appearing in at least one
observed pair, sorted as pandas does. -/
def ct_groups (ps : List (Option String × Option String)) : List String :=
  sort_strings ((obs_pairs ps).map Prod.fst).dedup

/-- The category (column) keys of the crosstab. -/
def ct_cats (ps : List (Option String × Option String)) : List String :=
  sort_strings ((obs_pairs ps).map Prod.snd).dedup

/-- Number of observed pairs in group `g` (the crosstab row total). -/
def row_total (ps : List (Option String × Option String)) (g : String) : ℕ :=
  (obs_pairs ps).countP (fun q => decide (q.1 = g))

/-- Number of observed pairs with group `g` and category `c`. -/
def cell_count (ps : List (Option String × Option String)) (g c : String) : ℕ :=
  (obs_pairs ps).countP (fun q => decide (q.1 = g) && decide (q.2 = c))

/-- One row of the row-normalized crosstab: the percentage of group `g`
falling in each category. -/
def pct_row (ps : List (Option String × Option String)) (g : String) : List ℚ :=
  (ct_cats ps).map (fun c => (cell_count ps g c : ℚ) / (row_total ps g : ℚ) * 100)

/-- The full row-normalized crosstab (percentages by group). -/
def crosstab_pct (ps : List (Option String × Option String)) : List (String × List ℚ) :=
  (ct_groups ps).map (fun g => (g, pct_row ps g))

/-- The table built by `create_stacked_bar` (src/app.py lines 391-398):
restrict to the top 8 roles, shorten role names, cross-tabulate against the
value column normalized by row, then `reindex` to the shortened top-role
order.  `reindex` emits a row of NaN (`none`) entries for a label that is
absent from the crosstab index. -/
def stacked_bar_table {α : Type} (rows : List (AppRow α)) : List (String × List (Option ℚ)) :=
  let top := top_roles_of 8 rows
  let dfl := (rows.filter (fun r => decide (r.role ∈ top))).map
    (fun r => AppRow.mk (shorten_role r.role) r.value r.rest)
  let pairs := dfl.map (fun r => ((some r.role : Option String), r.value))
  let ct := crosstab_pct pairs
  (top.map shorten_role).map (fun lab =>
    (lab,
      match List.lookup lab ct with
      | some rowvals => rowvals.map (fun v => some v)
      | none => (ct_cats pairs).map (fun _ => (none : Option ℚ))))

/-! ### app.py: keyword classification (lines 134, 163, 223-225, 328) -/

/-- The `positive_keywords` passed for Work Fulfillment (src/app.py line 328). -/
def work_fulfillment_positive_keywords : List String := ["extremely fulfilling"]

/-- `role_subset[question_col].str.contains('|'.join(keywords), case=False, na=False)`
(src/app.py lines 223-225): a row matches when its text contains any keyword. -/
def diverging_matches (keywords : List String) (v : Option String) : Bool :=
  match v with
  | none => false
  | some s => keywords.any (fun k => str_contains_ci s k)

/-- The KPI predicate of src/app.py line 134:
`Work_Fulfillment.str.contains('extremely', case=False, na=False)`. -/
def extremely_kpi_pred (v : Option String) : Bool :=
  match v with
  | none => false
  | some s => str_contains_ci s "extremely"

/-- `len(filtered_df[filtered_df['Work_Fulfillment'].str.contains('extremely', ...)])`. -/
def extremely_fulfilling_count {α : Type} (rows : List (AppRow α)) : ℕ :=
  rows.countP (fun r => extremely_kpi_pred r.value)

/-! ### app2.py: multi-select explosion (lines 235-240) and filtering (lines 98-101) -/

/-- One app2.py dataframe row for the multi-select pipelines: `eth` is the
raw multi-select column (possibly missing), `rest` stands for every other
column. -/
structure EthRow (α : Type) where
  eth : Option String
  rest : α
deriving DecidableEq

/-- One exploded row: all other columns (`rest`) plus one split token. -/
structure ExplodedRow (α : Type) where
  rest : α
  ethnicity_split : String
deriving DecidableEq

/-- `eth_exploded` (src/app2.py lines 235-240):
`assign(split on ',')`, `.explode`, `.str.strip()`, then drop empty tokens.
`astype(str)` turns a missing field into the literal `"nan"` first, and
`str.split` never yields an empty list, so `.explode` never sees one. -/
def eth_exploded {α : Type} (rows : List (EthRow α)) : List (ExplodedRow α) :=
  ((rows.flatMap (fun r =>
      (pySplitComma (astypeStr r.eth)).map (fun t => ExplodedRow.mk r.rest t))).map
    (fun e => ExplodedRow.mk e.rest (pyStrip e.ethnicity_split))).filter
    (fun e => decide (e.ethnicity_split ≠ ""))

/-- The non-empty trimmed tokens of one multi-select cell. -/
def multi_tokens (v : Option String) : List String :=
  ((pySplitComma (astypeStr v)).map pyStrip).filter (fun t => decide (t ≠ ""))

/-- The sidebar filter of src/app2.py lines 98-101:
`filtered_df[col].astype(str).str.contains(selected, na=False)` keeps a row
when the selected value occurs inside the raw multi-select cell. -/
def filter_by_multi {α : Type} (sel : String) (rows : List (EthRow α)) : List (EthRow α) :=
  rows.filter (fun r => pyIn sel (astypeStr r.eth))

/-- `needle` occurs as a contiguous substring of `hay`. -/
def IsPySubstr (needle hay : String) : Prop := ∃ pre post : String, hay = pre ++ needle ++ post

/-! ### app2.py: scalar summary (lines 103, 122, 129-136) -/

/-- Promoter count (src/app2.py line 129): rows with score `>= 9`;
a missing score never compares true. -/
def promoters (scores : List (Option ℚ)) : ℕ := scores.countP (fun s => pyGe s 9)

/-- Detractor count (src/app2.py line 130): rows with score `<= 6`. -/
def detractors (scores : List (Option ℚ)) : ℕ := scores.countP (fun s => pyLe s 6)

/-- `nps = ((promoters - detractors) / total * 100) if total > 0 else 0`
(src/app2.py line 131); `total = len(filtered_df)` counts all rows. -/
def npsOf (scores : List (Option ℚ)) : ℚ :=
  if 0 < scores.length then
    ((promoters scores : ℚ) - (detractors scores : ℚ)) / (scores.length : ℚ) * 100
  else 0

/-- A Python float result: an actual number or NaN. -/
inductive PyNum where
  | val : ℚ → PyNum
  | nan : PyNum
deriving DecidableEq

/-- The scores actually present (pandas `mean` skips NaN). -/
def present_scores (scores : List (Option ℚ)) : List ℚ := scores.filterMap id

/-- `Series.mean()`: NaN-skipping mean, NaN itself when no value is present. -/
def series_mean (scores : List (Option ℚ)) : PyNum :=
  if 0 < (present_scores scores).length then
    PyNum.val ((present_scores scores).sum / ((present_scores scores).length : ℚ))
  else PyNum.nan

/-- `avg_score = filtered_df[rec_col].mean() if total > 0 else 0`
(src/app2.py line 122). -/
def avg_score_metric (scores : List (Option ℚ)) : PyNum :=
  if 0 < scores.length then series_mean scores else PyNum.val 0

/-- The scalar summary triple produced by the KPI block of src/app2.py
(lines 103, 122, 129-131).  `Option PyNum` distinguishes Python `None`
(`none`) from a float; the code always produces a float. -/
structure ScalarSummary where
  mean : Option PyNum
  count : ℕ
  nps : Option PyNum
deriving DecidableEq

/-- The mean/count/nps scalars as the code computes them. -/
def scalar_summary (scores : List (Option ℚ)) : ScalarSummary :=
  { mean := some (avg_score_metric scores)
    count := scores.length
    nps := some (PyNum.val (npsOf scores)) }

/-! ### app.py: schema mapping (load_data, lines 40-45) -/

/-- A raw spreadsheet table: a header of column names and cell rows. -/
structure RawTable where
  header : List String
  rows : List (List String)
deriving DecidableEq

/-- The canonical column names assigned by `load_data` (src/app.py lines 43-44). -/
def canonical_columns : List String :=
  ["Role", "Ethnicity", "Disability", "Work_Fulfillment",
   "Recommendation_Score", "Recognition", "Growth_Potential"]

/-- `df.columns = names`: pandas raises a length-mismatch `ValueError`
unless `names` has exactly one entry per existing column. -/
def set_columns (names : List String) (t : RawTable) : Except String RawTable :=
  if names.length = t.header.length then Except.ok (RawTable.mk names t.rows)
  else Except.error "Length mismatch"

/-- The renaming step of `load_data` (src/app.py lines 42-45). -/
def load_data_rename (t : RawTable) : Except String RawTable :=
  set_columns canonical_columns t

/-! ### Concrete tables used to instantiate the theorems -/

/-- The known full-sentence positive Work Fulfillment answer. -/
def known_fulfillment_answer : String := "I find the work I do extremely fulfilling and rewarding"

/-- A negated answer that still contains the positive keyword. -/
def negated_answer : String := "I do not find the work I do extremely fulfilling"

/-- Two observed responses in one group. -/
def demo_pairs : List (Option String × Option String) :=
  [(some "g", some "x"), (some "g", some "y")]

/-- Four survey rows: role `"A"` three times with a missing answer, role
`"B"` once with answer `"yes"`. -/
def demo_stacked : List (AppRow Unit) :=
  [AppRow.mk "A" none (), AppRow.mk "A" none (), AppRow.mk "A" none (),
   AppRow.mk "B" (some "yes") ()]

/-- Seven roles with distinct response counts 7, 6, 5, 4, 3, 2, 1. -/
def demo_roles : List (AppRow Unit) :=
  List.replicate 7 (AppRow.mk "R1" none ()) ++ List.replicate 6 (AppRow.mk "R2" none ()) ++
  List.replicate 5 (AppRow.mk "R3" none ()) ++ List.replicate 4 (AppRow.mk "R4" none ()) ++
  List.replicate 3 (AppRow.mk "R5" none ()) ++ List.replicate 2 (AppRow.mk "R6" none ()) ++
  [AppRow.mk "R7" none ()]

/-! ### Substring lemmas -/

theorem listSub_nil (h : List Char) : listSub [] h = true := by
  cases h <;> rfl

theorem isPrefixOf_append_self : ∀ (l t : List Char), l.isPrefixOf (l ++ t) = true
  | [], t => by simp [List.isPrefixOf]
  | c :: cs, t => by
    show (c == c && cs.isPrefixOf (cs ++ t)) = true
    simp [isPrefixOf_append_self cs t]

theorem listSub_self_append (n post : List Char) : listSub n (n ++ post) = true := by
  cases n with
  | nil => exact listSub_nil post
  | cons c cs =>
    have h1 : (c :: cs).isPrefixOf ((c :: cs) ++ post) = true := isPrefixOf_append_self _ _
    simp only [List.cons_append] at h1
    simp [listSub, h1]

theorem listSub_append (n pre post : List Char) : listSub n (pre ++ n ++ post) = true := by
  induction pre with
  | nil => simpa using listSub_self_append n post
  | cons c cs ih =>
    show (n.isPrefixOf (c :: (cs ++ n ++ post)) || listSub n (cs ++ n ++ post)) = true
    rw [ih]
    simp

theorem eq_append_of_isPrefixOf : ∀ {n h : List Char}, n.isPrefixOf h = true → ∃ t, h = n ++ t := by
  intro n
  induction n with
  | nil => exact fun {h} _ => ⟨h, rfl⟩
  | cons a as ih =>
    intro h hp
    cases h with
    | nil => simp [List.isPrefixOf] at hp
    | cons b bs =>
      have hab : (a == b) = true ∧ as.isPrefixOf bs = true := by
        simpa [List.isPrefixOf, Bool.and_eq_true] using hp
      obtain ⟨t, rfl⟩ := ih hab.2
      have hab' : a = b := eq_of_beq hab.1
      exact ⟨t, by rw [← hab']; rfl⟩

theorem listSub_iff (n h : List Char) : listSub n h = true ↔ ∃ l r, h = l ++ n ++ r := by
  constructor
  · induction h with
    | nil =>
      intro hs
      have hn : n = [] := by simpa [listSub, List.isEmpty_iff] using hs
      exact ⟨[], [], by simp [hn]⟩
    | cons c cs ih =>
      intro hs
      rcases (by simpa [listSub] using hs : n.isPrefixOf (c :: cs) = true ∨ listSub n cs = true)
        with hp | hrec
      · obtain ⟨t, ht⟩ := eq_append_of_isPrefixOf hp
        exact ⟨[], t, by simp [ht]⟩
      · obtain ⟨l, r, rfl⟩ := ih hrec
        exact ⟨c :: l, r, by simp⟩
  · rintro ⟨l, r, rfl⟩
    exact listSub_append n l r

theorem pyIn_iff (needle hay : String) : pyIn needle hay = true ↔ IsPySubstr needle hay := by
  unfold pyIn IsPySubstr
  rw [listSub_iff]
  constructor
  · rintro ⟨l, r, hd⟩
    refine ⟨String.mk l, String.mk r, ?_⟩
    apply String.ext
    simpa [String.data_append] using hd
  · rintro ⟨pre, post, rfl⟩
    refine ⟨pre.data, post.data, ?_⟩
    rw [String.data_append, String.data_append]

theorem lowerData_append (a b : String) : lowerData (a ++ b) = lowerData a ++ lowerData b := by
  simp [lowerData, String.data_append]

theorem str_contains_ci_append (pre k post : String) :
    str_contains_ci (pre ++ k ++ post) k = true := by
  unfold str_contains_ci
  rw [lowerData_append, lowerData_append]
  exact listSub_append _ _ _

/-! ### C1: category normalization of the disability column -/

/-- C1 (amended): `categorize_disability` is total on strings — every input
maps to exactly one of the three labels `No Disability`,
`Prefer Not to Specify`, `With Disability`; unmatched text falls through to
`With Disability`, not to an `Unknown` sentinel. -/
theorem C1_categorize_total (s : String) :
    categorize_disability s = "No Disability" ∨
    categorize_disability s = "Prefer Not to Specify" ∨
    categorize_disability s = "With Disability" := by
  unfold categorize_disability
  split
  · exact Or.inl rfl
  · split
    · exact Or.inr (Or.inl rfl)
    · exact Or.inr (Or.inr rfl)

/-- C1 counterexample: empty and whitespace-only text is routed to
`With Disability`, not to the claimed `Unknown` sentinel. -/
theorem C1_counterexample :
    categorize_disability "" = "With Disability" ∧
    categorize_disability "   " = "With Disability" ∧
    categorize_disability "" ≠ "Unknown" := by decide

/-! ### C2: multi-select explosion -/

/-- C2 (amended): `eth_exploded` splits each cell on commas, trims each
token, drops empty tokens, and emits one row per remaining token with all
other fields copied unchanged — so a row whose field is empty after
splitting contributes zero rows (no sentinel row is emitted). -/
theorem C2_exploded_rows {α : Type} (rows : List (EthRow α)) :
    eth_exploded rows =
      rows.flatMap (fun r => (multi_tokens r.eth).map (fun t => ExplodedRow.mk r.rest t)) := by
  unfold eth_exploded multi_tokens
  rw [List.map_flatMap, List.filter_flatMap]
  congr 1
  funext r
  conv_lhs => rw [List.map_map, List.filter_map]
  conv_rhs => rw [List.filter_map, List.map_map]
  rfl

/-- C2 counterexample: a respondent whose multi-select cell is empty (or
holds only empty tokens) vanishes from the exploded table instead of
yielding one sentinel row, and a missing cell becomes the literal token
`"nan"`, not an `Unknown`/`No response` sentinel. -/
theorem C2_counterexample :
    eth_exploded [EthRow.mk (some "") (0 : ℕ)] = [] ∧
    eth_exploded [EthRow.mk (some " , ") (0 : ℕ)] = [] ∧
    eth_exploded [EthRow.mk (none : Option String) (0 : ℕ)] = [ExplodedRow.mk 0 "nan"] := by
  decide

/-! ### C4: scalar summary on empty input -/

/-- C4 (amended): the KPI block never raises and never produces `None`: the
count is the row count, and on a zero-row table both the average and the
NPS are the number `0` (not `None`). -/
theorem C4_scalar_summary_empty (scores : List (Option ℚ)) :
    (scalar_summary scores).count = scores.length ∧
    (scalar_summary scores).mean ≠ none ∧
    (scalar_summary scores).nps ≠ none ∧
    (scores = [] →
      scalar_summary scores = ScalarSummary.mk (some (PyNum.val 0)) 0 (some (PyNum.val 0))) := by
  refine ⟨rfl, by simp [scalar_summary], by simp [scalar_summary], ?_⟩
  rintro rfl
  rfl

theorem C4_witness :
    scalar_summary ([] : List (Option ℚ)) =
      ScalarSummary.mk (some (PyNum.val 0)) 0 (some (PyNum.val 0)) :=
  (C4_scalar_summary_empty []).2.2.2 rfl

/-- C4 counterexample: on the empty table the code yields the float `0` for
the mean and the NPS — not `None` as claimed. -/
theorem C4_counterexample :
    (scalar_summary ([] : List (Option ℚ))).mean = some (PyNum.val 0) ∧
    (scalar_summary ([] : List (Option ℚ))).nps = some (PyNum.val 0) ∧
    some (PyNum.val 0) ≠ (none : Option PyNum) := by decide

/-! ### C5: score banding -/

/-- C5 (amended): present scores are banded exactly as claimed
(`<=3 → 0-3`, `<=6 → 4-6`, `<=8 → 7-8`, above → `9-10`), but a missing
score is not omitted: every NaN comparison is false, so it falls through to
the `9-10` band. -/
theorem C5_score_band (q : ℚ) :
    (q ≤ 3 → get_score_band (some q) = "0-3") ∧
    (3 < q → q ≤ 6 → get_score_band (some q) = "4-6") ∧
    (6 < q → q ≤ 8 → get_score_band (some q) = "7-8") ∧
    (8 < q → get_score_band (some q) = "9-10") ∧
    get_score_band none = "9-10" := by
  refine ⟨?_, ?_, ?_, ?_, rfl⟩
  · intro h
    simp [get_score_band, pyLe, h]
  · intro h1 h2
    simp [get_score_band, pyLe, h2, not_le.mpr h1]
  · intro h1 h2
    have h3 : ¬ q ≤ 3 := not_le.mpr (lt_trans (by norm_num) h1)
    simp [get_score_band, pyLe, h2, h3, not_le.mpr h1]
  · intro h1
    have h3 : ¬ q ≤ 3 := not_le.mpr (lt_trans (by norm_num) h1)
    have h6 : ¬ q ≤ 6 := not_le.mpr (lt_trans (by norm_num) h1)
    simp [get_score_band, pyLe, h3, h6, not_le.mpr h1]

theorem C5_witness :
    get_score_band (some 2) = "0-3" ∧ get_score_band (some 5) = "4-6" ∧
    get_score_band (some 7) = "7-8" ∧ get_score_band (some 9) = "9-10" :=
  ⟨(C5_score_band 2).1 (by norm_num),
   (C5_score_band 5).2.1 (by norm_num) (by norm_num),
   (C5_score_band 7).2.2.1 (by norm_num) (by norm_num),
   (C5_score_band 9).2.2.2.1 (by norm_num)⟩

/-- C5 counterexample: a missing score is assigned the concrete band
`9-10` rather than being left without a band. -/
theorem C5_counterexample :
    get_score_band (none : Option ℚ) = "9-10" ∧
    "9-10" ∈ ["0-3", "4-6", "7-8", "9-10"] := by decide

/-! ### C7: keyword (substring) classification -/

/-- C7 (amended): app.py classifies sentiment by case-insensitive keyword
containment, not exact lookup — any text containing a positive keyword is
classified positive regardless of surrounding words (including negations),
and any text containing `extremely` is counted by the KPI. -/
theorem C7_substring_classification (pre post : String) :
    diverging_matches work_fulfillment_positive_keywords
      (some (pre ++ "extremely fulfilling" ++ post)) = true ∧
    extremely_kpi_pred (some (pre ++ "extremely" ++ post)) = true := by
  constructor
  · simp [diverging_matches, work_fulfillment_positive_keywords, str_contains_ci_append]
  · simp [extremely_kpi_pred, str_contains_ci_append]

/-- C7 counterexample: a negated sentence that is not the known
full-sentence positive answer is still matched as positive by the
diverging-bar keywords and counted by the `extremely` KPI. -/
theorem C7_counterexample :
    diverging_matches work_fulfillment_positive_keywords (some negated_answer) = true ∧
    extremely_kpi_pred (some negated_answer) = true ∧
    negated_answer ≠ known_fulfillment_answer := by decide

/-! ### C8: schema mapping -/

/-- C8 (amended): renaming succeeds exactly when the raw table has the same
number of columns as the canonical list, and then the result carries the
canonical header with every cell value unchanged. -/
theorem C8_rename_exact (t : RawTable) (h : t.header.length = canonical_columns.length) :
    load_data_rename t = Except.ok (RawTable.mk canonical_columns t.rows) := by
  simp [load_data_rename, set_columns, h]

theorem C8_witness :
    load_data_rename
        (RawTable.mk ["a", "b", "c", "d", "e", "f", "g"] [["1", "2", "3", "4", "5", "6", "7"]]) =
      Except.ok (RawTable.mk canonical_columns [["1", "2", "3", "4", "5", "6", "7"]]) :=
  C8_rename_exact _ (by decide)

/-- C8 counterexample: a raw table with more columns than the canonical
list (8 ≥ 7) satisfies the claimed precondition, yet the assignment raises
a length-mismatch error instead of returning a renamed table. -/
theorem C8_counterexample :
    canonical_columns.length ≤
      (RawTable.mk ["a", "b", "c", "d", "e", "f", "g", "h"] []).header.length ∧
    load_data_rename (RawTable.mk ["a", "b", "c", "d", "e", "f", "g", "h"] []) =
      Except.error "Length mismatch" :=
  ⟨by decide, rfl⟩

/-! ### C3: NPS formula and bounds -/

/-- C3: whenever at least one row carries a score, the NPS equals
(promoter fraction − detractor fraction) × 100 over the table's rows, and
for every input the NPS lies in [-100, 100]. -/
theorem C3_nps (scores : List (Option ℚ)) :
    ((∃ s ∈ scores, s.isSome = true) →
      npsOf scores =
        ((promoters scores : ℚ) / (scores.length : ℚ) -
          (detractors scores : ℚ) / (scores.length : ℚ)) * 100) ∧
    (-100 ≤ npsOf scores ∧ npsOf scores ≤ 100) := by
  have hple : promoters scores ≤ scores.length := List.countP_le_length _
  have hdle : detractors scores ≤ scores.length := List.countP_le_length _
  constructor
  · rintro ⟨s, hs, -⟩
    have hn : 0 < scores.length := List.length_pos.mpr (by rintro rfl; cases hs)
    simp only [npsOf, if_pos hn]
    rw [sub_div]
  · by_cases hn : 0 < scores.length
    · have hnQ : (0 : ℚ) < (scores.length : ℚ) := by exact_mod_cast hn
      have hpQ : (promoters scores : ℚ) ≤ (scores.length : ℚ) := by exact_mod_cast hple
      have hdQ : (detractors scores : ℚ) ≤ (scores.length : ℚ) := by exact_mod_cast hdle
      have hp0 : (0 : ℚ) ≤ (promoters scores : ℚ) := by positivity
      have hd0 : (0 : ℚ) ≤ (detractors scores : ℚ) := by positivity
      simp only [npsOf, if_pos hn]
      constructor
      · rw [div_mul_eq_mul_div, le_div_iff₀ hnQ]
        nlinarith
      · rw [div_mul_eq_mul_div, div_le_iff₀ hnQ]
        nlinarith
    · simp only [npsOf, if_neg hn]
      norm_num

theorem C3_witness :
    npsOf [some 9, some 3] =
      ((promoters [some 9, some 3] : ℚ) / (([some 9, some 3] : List (Option ℚ)).length : ℚ) -
        (detractors [some 9, some 3] : ℚ) / (([some 9, some 3] : List (Option ℚ)).length : ℚ)) * 100 ∧
    (-100 ≤ npsOf [some 9, some 3] ∧ npsOf [some 9, some 3] ≤ 100) :=
  ⟨(C3_nps [some 9, some 3]).1 ⟨some 9, List.mem_cons_self _ _, rfl⟩,
   (C3_nps [some 9, some 3]).2⟩

/-! ### C6: row-stochastic distributions -/

theorem list_sum_map_add {α : Type} (l : List α) (f g : α → ℕ) :
    (l.map (fun x => f x + g x)).sum = (l.map f).sum + (l.map g).sum := by
  induction l with
  | nil => rfl
  | cons a t ih =>
    simp only [List.map_cons, List.sum_cons, ih]
    omega

theorem list_sum_indicator {α : Type} [DecidableEq α] :
    ∀ (l : List α) (a : α), l.Nodup → a ∈ l →
      (l.map (fun c => if a = c then (1 : ℕ) else 0)).sum = 1 := by
  intro l
  induction l with
  | nil => intro a _ ha; cases ha
  | cons b t ih =>
    intro a hnd ha
    rcases List.mem_cons.mp ha with rfl | h
    · have hnt : a ∉ t := (List.nodup_cons.mp hnd).1
      have hz : (t.map (fun c => if a = c then (1 : ℕ) else 0)).sum = 0 := by
        apply List.sum_eq_zero
        intro x hx
        obtain ⟨c, hc, rfl⟩ := List.mem_map.mp hx
        have hac : a ≠ c := fun e => hnt (e ▸ hc)
        simp [hac]
      simp [hz]
    · have hab : a ≠ b := fun e => (List.nodup_cons.mp hnd).1 (e ▸ h)
      simp [hab, ih a (List.nodup_cons.mp hnd).2 h]

theorem countP_cells (g : String) :
    ∀ (obs : List (String × String)) (cats : List String), cats.Nodup →
      (∀ p ∈ obs, p.2 ∈ cats) →
      (cats.map (fun c => obs.countP (fun q => decide (q.1 = g) && decide (q.2 = c)))).sum
        = obs.countP (fun q => decide (q.1 = g)) := by
  intro obs
  induction obs with
  | nil => intro cats _ _; simp
  | cons p rest ih =>
    intro cats hnd hcov
    have hcov' : ∀ q ∈ rest, q.2 ∈ cats := fun q hq => hcov q (List.mem_cons_of_mem _ hq)
    have hp2 : p.2 ∈ cats := hcov p (List.mem_cons_self _ _)
    simp only [List.countP_cons]
    rw [list_sum_map_add cats
      (fun c => rest.countP (fun q => decide (q.1 = g) && decide (q.2 = c)))
      (fun c => if (decide (p.1 = g) && decide (p.2 = c)) = true then 1 else 0)]
    rw [ih cats hnd hcov']
    congr 1
    by_cases hg : p.1 = g
    · have hfun : (fun c => if (decide (p.1 = g) && decide (p.2 = c)) = true then (1 : ℕ) else 0)
          = fun c => if p.2 = c then (1 : ℕ) else 0 := by
        funext c
        simp [hg]
      rw [hfun, list_sum_indicator cats p.2 hnd hp2]
      simp [hg]
    · simp [hg]

/-- The crosstab row counts in each group add up to that group's total. -/
theorem cell_counts_total (ps : List (Option String × Option String)) (g : String) :
    ((ct_cats ps).map (fun c => cell_count ps g c)).sum = row_total ps g := by
  have hnd : (ct_cats ps).Nodup :=
    ((List.perm_insertionSort _ _).nodup_iff).mpr (List.nodup_dedup _)
  have hcov : ∀ q ∈ obs_pairs ps, q.2 ∈ ct_cats ps := by
    intro q hq
    exact ((List.perm_insertionSort _ _).mem_iff).mpr
      (List.mem_dedup.mpr (List.mem_map_of_mem _ hq))
  unfold cell_count row_total
  exact countP_cells g (obs_pairs ps) (ct_cats ps) hnd hcov

/-- C6 (amended): every group actually produced by the row-normalized
crosstab has at least one observed row, and its percentages sum to exactly
100 — zero-row groups never appear in the crosstab itself.  (The exception
forced by the counterexample: `create_stacked_bar` reindexes the crosstab
to the top-8 role order, which re-emits an all-NaN row for a top role whose
every response value is missing.) -/
theorem C6_row_stochastic (ps : List (Option String × Option String)) (g : String)
    (hg : g ∈ ct_groups ps) :
    0 < row_total ps g ∧ (pct_row ps g).sum = 100 := by
  have hmemg : g ∈ ((obs_pairs ps).map Prod.fst) :=
    List.mem_dedup.mp (((List.perm_insertionSort _ _).mem_iff).mp hg)
  obtain ⟨p, hp, hpg⟩ := List.mem_map.mp hmemg
  have hpos : 0 < row_total ps g := by
    unfold row_total
    exact List.countP_pos_iff.mpr ⟨p, hp, by simp [hpg]⟩
  refine ⟨hpos, ?_⟩
  have hrtQ : ((row_total ps g : ℚ)) ≠ 0 :=
    Nat.cast_ne_zero.mpr (Nat.pos_iff_ne_zero.mp hpos)
  calc (pct_row ps g).sum
      = ((ct_cats ps).map (fun c => (cell_count ps g c : ℚ) * (100 / (row_total ps g : ℚ)))).sum := by
        unfold pct_row
        congr 1
        apply List.map_congr_left
        intro c _
        rw [div_mul_eq_mul_div, mul_div_assoc]
    _ = ((ct_cats ps).map (fun c => (cell_count ps g c : ℚ))).sum * (100 / (row_total ps g : ℚ)) :=
        List.sum_map_mul_right _ _ _
    _ = (((ct_cats ps).map (fun c => cell_count ps g c)).sum : ℚ) * (100 / (row_total ps g : ℚ)) := by
        rw [Nat.cast_list_sum, List.map_map]
        rfl
    _ = ((row_total ps g : ℕ) : ℚ) * (100 / (row_total ps g : ℚ)) := by
        rw [cell_counts_total]
    _ = 100 := by field_simp

theorem C6_witness : 0 < row_total demo_pairs "g" ∧ (pct_row demo_pairs "g").sum = 100 :=
  C6_row_stochastic demo_pairs "g" (by decide)

/-- C6 counterexample: on a table whose most frequent role has only missing
answers, `create_stacked_bar` emits that role's row filled with NaN
(`none`) entries — a group whose percentages cannot sum to 100 — because
`reindex` reinstates the label after the crosstab omitted it. -/
theorem C6_counterexample :
    (stacked_bar_table demo_stacked).head? = some ("A", [(none : Option ℚ)]) ∧
    (stacked_bar_table demo_stacked).length = 2 := by
  decide

/-! ### C9: restriction to the most frequent roles -/

/-- C9: each role-wise chart pipeline keeps exactly the rows whose role is
among the most frequent roles — top 8 for the heatmaps, diverging bars and
stacked bars, top 6 for the grouped bars — so rows with any other role are
excluded from those cross-tabulations. -/
theorem C9_top_role_restriction {α : Type} (rows : List (AppRow α)) (r : AppRow α) :
    (r ∈ heatmap_source rows ↔ r ∈ rows ∧ r.role ∈ top_roles_of 8 rows) ∧
    (r ∈ diverging_source rows ↔ r ∈ rows ∧ r.role ∈ top_roles_of 8 rows) ∧
    (r ∈ stacked_source rows ↔ r ∈ rows ∧ r.role ∈ top_roles_of 8 rows) ∧
    (r ∈ grouped_source rows ↔ r ∈ rows ∧ r.role ∈ top_roles_of 6 rows) := by
  simp [heatmap_source, diverging_source, stacked_source, grouped_source, List.mem_filter]

theorem C9_witness :
    AppRow.mk "R7" none () ∈ heatmap_source demo_roles ∧
    AppRow.mk "R7" none () ∉ grouped_source demo_roles :=
  ⟨(C9_top_role_restriction demo_roles (AppRow.mk "R7" none ())).1.mpr ⟨by decide, by decide⟩,
   fun h =>
     absurd (((C9_top_role_restriction demo_roles (AppRow.mk "R7" none ())).2.2.2.mp h).2)
       (by decide)⟩

/-! ### C10: substring-based demographic filtering -/

/-- C10: the app2.py demographic filter keeps a row exactly when the
selected value occurs as a contiguous substring of the row's raw
multi-select cell — in particular any row whose cell extends the selected
value (a longer category containing it) is kept, with no whole-token
comparison. -/
theorem C10_substring_filter {α : Type} (rows : List (EthRow α)) (sel : String) (r : EthRow α) :
    (r ∈ filter_by_multi sel rows ↔ r ∈ rows ∧ IsPySubstr sel (astypeStr r.eth)) ∧
    (∀ pre post : String, astypeStr r.eth = pre ++ sel ++ post → r ∈ rows →
      r ∈ filter_by_multi sel rows) := by
  constructor
  · simp [filter_by_multi, List.mem_filter, pyIn_iff]
  · intro pre post hdec hr
    simp only [filter_by_multi, List.mem_filter]
    exact ⟨hr, (pyIn_iff _ _).mpr ⟨pre, post, hdec⟩⟩

theorem C10_witness :
    EthRow.mk (some "Black or African American") (0 : ℕ) ∈
      filter_by_multi "Black" [EthRow.mk (some "Black or African American") (0 : ℕ)] :=
  (C10_substring_filter [EthRow.mk (some "Black or African American") (0 : ℕ)] "Black"
      (EthRow.mk (some "Black or African American") (0 : ℕ))).2
    "" " or African American" (by decide) (List.mem_cons_self _ _)

end StaffSurvey
